import Mathlib

/-!
Verification of the temporal query resolution and AI-assisted ranking pipeline
of the events-discovery backend (Backend/utils/date_utils.py,
Backend/routers/events.py, Backend/routers/ai_search.py,
Backend/routers/ai_search_optimized.py, Backend/services/openai_service.py,
Backend/services/openai_service_optimized.py).

Modelling conventions:
- A Python `datetime` is modelled as an integer count of microseconds.  A
  naive-UTC datetime holds microseconds since the Unix epoch
  (1970-01-01 00:00:00 UTC, a Thursday); an Asia/Dubai wall-clock datetime
  holds microseconds since 1970-01-01 00:00:00 *Dubai wall clock*.
  Asia/Dubai is UTC+04:00 with no daylight saving in the era this program
  operates in, so conversion is a fixed shift of 4 hours.
- Python floor division `//` and modulo `%` on ints agree with `/` and `%`
  on `Int` (Euclidean division) for positive divisors; those are used
  throughout.
- A function that can raise is modelled with `Option` (`none` = exception).
-/

/-- Microseconds in one day. -/
def usPerDay : Int := 86400000000

/-- Microseconds in one hour. -/
def usPerHour : Int := 3600000000

/-- Fixed Asia/Dubai offset from UTC (4 hours), in microseconds. -/
def dubaiOffset : Int := 14400000000

/-- `convert_to_dubai_time` on a naive-UTC datetime: shift the wall clock
by +4 h (pytz localizes naive values as UTC, then converts to Asia/Dubai). -/
def toDubai (t : Int) : Int := t + dubaiOffset

/-- `convert_to_utc` on an Asia/Dubai wall-clock datetime: shift by -4 h and
drop tzinfo (the source returns a naive UTC datetime). -/
def toUTC (d : Int) : Int := d - dubaiOffset

/-- Day index (days since the epoch) of a wall-clock microsecond count,
Python `datetime.date()` ordinal shifted to the 1970 epoch. -/
def dayIndexOf (d : Int) : Int := d / usPerDay

/-- Python `dt.weekday()`: Monday = 0 .. Sunday = 6.  The epoch day
(1970-01-01) was a Thursday, weekday 3. -/
def pyWeekday (d : Int) : Int := (dayIndexOf d + 3) % 7

/-- Python `dt.replace(hour=0, minute=0, second=0, microsecond=0)`. -/
def midnightOf (d : Int) : Int := dayIndexOf d * usPerDay

/-- Time of day: `dt - dt.replace(hour=0, ...)` in microseconds. -/
def timeOfDayOf (d : Int) : Int := d % usPerDay

/-- `is_weekend_day` (date_utils.py line 52): the Dubai-civil day of a
naive-UTC datetime is Saturday (5) or Sunday (6). -/
def is_weekend_day (t : Int) : Bool :=
  pyWeekday (toDubai t) == 5 || pyWeekday (toDubai t) == 6

/-- `is_weekday` (date_utils.py line 60). -/
def is_weekday (t : Int) : Bool := ! is_weekend_day t

/-- Civil date from a day index (proleptic Gregorian; standard algorithm).
Returns (year, month, day-of-month); used to model Python `datetime`
calendar fields. -/
def civilFromDays (z0 : Int) : Int × Int × Int :=
  let z := z0 + 719468
  let era := z / 146097
  let doe := z - era * 146097
  let yoe := (doe - doe / 1460 + doe / 36524 - doe / 146096) / 365
  let y := yoe + era * 400
  let doy := doe - (365 * yoe + yoe / 4 - yoe / 100)
  let mp := (5 * doy + 2) / 153
  let dom := doy - (153 * mp + 2) / 5 + 1
  let m := if mp < 10 then mp + 3 else mp - 9
  (if m ≤ 2 then y + 1 else y, m, dom)

/-- Day index from a civil date (inverse of `civilFromDays`). -/
def daysFromCivil (y0 m d : Int) : Int :=
  let y := if m ≤ 2 then y0 - 1 else y0
  let era := y / 400
  let yoe := y - era * 400
  let mp := if m > 2 then m - 3 else m + 9
  let doy := (153 * mp + 2) / 5 + d - 1
  let doe := yoe * 365 + yoe / 4 - yoe / 100 + doy
  era * 146097 + doe - 719468

/-- Gregorian leap year test. -/
def isLeapYear (y : Int) : Bool :=
  (y % 4 == 0 && y % 100 != 0) || y % 400 == 0

/-- Number of days in a civil month (used to model the `ValueError` that
Python `datetime.replace(month=...)` raises on an invalid day). -/
def daysInMonth (y m : Int) : Int :=
  if m == 1 || m == 3 || m == 5 || m == 7 || m == 8 || m == 10 || m == 12 then 31
  else if m == 4 || m == 6 || m == 9 || m == 11 then 30
  else if isLeapYear y then 29
  else 28

/-- `get_week_start_end` (date_utils.py lines 78-91) on a Dubai wall-clock
datetime `d` (the source first converts its argument to Dubai time; callers
inside `calculate_date_range` pass an already-Dubai value, on which that
conversion is the identity).  Week runs Monday 00:00:00 to Sunday 23:59:59. -/
def weekStartEndD (d : Int) : Int × Int :=
  let daysSinceMonday := pyWeekday d
  let weekStart := midnightOf (d - daysSinceMonday * usPerDay)
  let weekEnd := weekStart + 6 * usPerDay + 86399000000
  (toUTC weekStart, toUTC weekEnd)

/-- `get_weekend_start_end` (date_utils.py lines 93-112) on a Dubai
wall-clock datetime `d`.  Mirrors the source exactly, including the
`saturday_offset == 0 and weekday > 5` branch (which is unreachable:
the offset is 0 only when the weekday is exactly 5). -/
def weekendStartEndD (d : Int) : Int × Int :=
  let daysSinceMonday := pyWeekday d
  let saturdayOffset := (5 - daysSinceMonday) % 7
  let saturdayOffset2 :=
    if saturdayOffset = 0 ∧ daysSinceMonday > 5 then 7 - daysSinceMonday + 5
    else saturdayOffset
  let saturday := d + saturdayOffset2 * usPerDay
  let saturdayStart := midnightOf saturday
  let sundayEnd := saturdayStart + usPerDay + 86399000000
  (toUTC saturdayStart, toUTC sundayEnd)

/-- `get_weekend_start_end` on a naive-UTC datetime (the source converts to
Dubai time first). -/
def get_weekend_start_end (t : Int) : Int × Int := weekendStartEndD (toDubai t)

/-- `get_month_start_end` (date_utils.py lines 114-129) on a Dubai
wall-clock datetime: first-of-month 00:00:00 to last-of-month
23:59:59.999999.  `replace(day=1)` never raises. -/
def monthStartEndD (d : Int) : Int × Int :=
  let c := civilFromDays (dayIndexOf d)
  let y := c.1
  let m := c.2.1
  let monthStart := daysFromCivil y m 1 * usPerDay
  let nextMonthDay := if m = 12 then daysFromCivil (y + 1) 1 1 else daysFromCivil y (m + 1) 1
  let monthEnd := (nextMonthDay - 1) * usPerDay + 86399999999
  (toUTC monthStart, toUTC monthEnd)

/-- The `today` branch of `calculate_date_range` (date_utils.py lines
147-150) on a Dubai wall-clock datetime: civil midnight through
23:59:59.999999, converted to UTC. -/
def todayRangeD (d : Int) : Int × Int :=
  (toUTC (midnightOf d), toUTC (midnightOf d + 86399999999))

/-- The `tomorrow` branch (lines 152-156). -/
def tomorrowRangeD (d : Int) : Int × Int :=
  let t := d + usPerDay
  (toUTC (midnightOf t), toUTC (midnightOf t + 86399999999))

/-- `calculate_date_range` (date_utils.py lines 131-193) dispatch, acting on
the Dubai wall-clock reference `d` (the source converts its reference to
Dubai time up front; `convert_to_dubai_time` is the identity on values that
are already Dubai-aware, so the recursive call in the final `else` branch is
the `today` branch applied to `d` directly — it is inlined here).
`utcNow` models the `get_utc_now()` call in the `next_weekend` branch.
Returns `none` when the Python code would raise (`reference_date.replace
(month=month+1)` with a day-of-month that does not exist in the target
month). -/
def calcDateRangeD (rangeType : String) (d utcNow : Int) : Option (Int × Int) :=
  if rangeType = "today" then some (todayRangeD d)
  else if rangeType = "tomorrow" then some (tomorrowRangeD d)
  else if rangeType = "this_week" then some (weekStartEndD d)
  else if rangeType = "next_week" then some (weekStartEndD (d + 7 * usPerDay))
  else if rangeType = "this_weekend" then some (weekendStartEndD d)
  else if rangeType = "next_weekend" then
    let currentWeekend := weekendStartEndD d
    if toDubai utcNow > toDubai currentWeekend.2 then
      some (weekendStartEndD (d + 7 * usPerDay))
    else
      some (weekendStartEndD (d + 7 * usPerDay))
  else if rangeType = "this_month" then some (monthStartEndD d)
  else if rangeType = "next_month" then
    let c := civilFromDays (dayIndexOf d)
    let y := c.1
    let m := c.2.1
    let dom := c.2.2
    let ny := if m = 12 then y + 1 else y
    let nm := if m = 12 then 1 else m + 1
    if dom > daysInMonth ny nm then none
    else some (monthStartEndD (daysFromCivil ny nm dom * usPerDay + timeOfDayOf d))
  else some (todayRangeD d)

/-- `calculate_date_range(range_type, reference_date)` with an explicit
naive-UTC reference (the source converts it to Dubai time). -/
def calculate_date_range (rangeType : String) (t utcNow : Int) : Option (Int × Int) :=
  calcDateRangeD rangeType (toDubai t) utcNow

/-- `calculate_date_range(range_type)` with `reference_date=None`: the
source uses `get_dubai_now()`, i.e. the current instant on the Dubai wall
clock. -/
def calculate_date_range_now (rangeType : String) (utcNow : Int) : Option (Int × Int) :=
  calcDateRangeD rangeType (toDubai utcNow) utcNow

/-! ## String utilities

Python string operations used by the lexical intent detection, modelled
structurally over `String.data` so that everything evaluates by `decide`. -/

/-- Lower-case a character list (Python `str.lower()` on the ASCII lexicon
used by the source). -/
def pyLowerChars (l : List Char) : List Char := l.map Char.toLower

/-- Python `s.lower()`. -/
def pyLower (s : String) : String := String.mk (pyLowerChars s.data)

/-- Whether `pat` occurs as a contiguous subsequence of `l`. -/
def containsSeq (pat : List Char) : List Char → Bool
  | [] => pat.isEmpty
  | c :: cs => List.isPrefixOf pat (c :: cs) || containsSeq pat cs

/-- Python `pat in s` on strings (substring containment). -/
def strContains (s pat : String) : Bool := containsSeq pat.data s.data

/-- Case-insensitive substring containment: MongoDB
regex match with the i option, for the plain-text patterns the source uses. -/
def strContainsCI (s pat : String) : Bool :=
  containsSeq (pyLowerChars pat.data) (pyLowerChars s.data)

/-- Helper for Python `s.split()`: accumulate the current word (reversed)
while scanning; whitespace runs produce no empty words. -/
def pyWordsAux (acc : List Char) : List Char → List String
  | [] => if acc.isEmpty then [] else [String.mk acc.reverse]
  | c :: cs =>
    if c = ' ' then
      if acc.isEmpty then pyWordsAux [] cs
      else String.mk acc.reverse :: pyWordsAux [] cs
    else pyWordsAux (c :: acc) cs

/-- Python `s.split()` (split on blank runs, no empty words). -/
def pyWords (s : String) : List String := pyWordsAux [] s.data

/-- Keep the first occurrence of each element (Python `set(...)` viewed as
a duplicate-free list; only cardinality and membership are used). -/
def dedupFirst : List String → List String
  | [] => []
  | w :: ws => if (dedupFirst ws).contains w then dedupFirst ws else w :: dedupFirst ws

/-- Python `s[:n]`. -/
def pyTake (n : Nat) (s : String) : String := String.mk (s.data.take n)

/-! ## Document and retrieval-predicate model

A MongoDB event document, restricted to the fields the search filters
touch.  `Option` models a possibly-missing field (queries on a missing
field do not match).  MongoDB semantics used below: a comparison operator
on a missing field is false; equality against an array field means
containment; `$in` against an array field means non-empty intersection;
`$regex` on an array field matches if some element matches. -/
structure Doc where
  id : String
  title : String
  description : String
  status : String
  category : Option String
  primary_category : Option String
  secondary_categories : List String
  tags : List String
  price : Option String
  pricing_base_price : Option Int
  price_data_min : Option Int
  price_data_max : Option Int
  familyScore : Option Int
  is_family_friendly : Option Bool
  familySuitability_isAllAges : Option Bool
  age_min : Option Int
  age_max : Option Int
  age_restrictions : Option String
  location : Option String
  venue_area : Option String
  address : Option String
  venue_type : Option String
  indoor_outdoor : Option String
  start_date : Option Int
  end_date : Option Int
deriving DecidableEq

/-- A single field-level MongoDB condition (one key/value pair whose value
is a constant or a comparison-operator object). -/
inductive MAtom where
  | statusEq (s : String)
  | startGe (t : Int)
  | startLe (t : Int)
  | startBetween (a b : Int)
  | endGe (t : Int)
  | endLe (t : Int)
  | endBetween (a b : Int)
  | titleRegexI (p : String)
  | descRegexI (p : String)
  | tagsRegexI (p : String)
  | categoryRegexI (p : String)
  | priceRegexI (p : String)
  | priceEqS (s : String)
  | pricingBaseEq (n : Int)
  | pricingBaseLe (n : Int)
  | pricingBaseGe (n : Int)
  | priceDataMinEq (n : Int)
  | priceDataMinLe (n : Int)
  | priceDataMinGe (n : Int)
  | priceDataMaxEq (n : Int)
  | categoryEq (s : String)
  | categoryIn (l : List String)
  | primaryCategoryEq (s : String)
  | primaryCategoryIn (l : List String)
  | secondaryCategoriesEq (s : String)
  | tagsIn (l : List String)
  | isFamilyFriendlyEq (b : Bool)
  | isAllAgesEq (b : Bool)
  | familyScoreGe (n : Int)
  | ageMinLe (n : Int)
  | ageMinGe (n : Int)
  | ageMaxGe (n : Int)
  | ageRestrictionsRegexI (p : String)
  | locationRegexI (p : String)
  | venueAreaRegexI (p : String)
  | venueAreaRegexAny (l : List String)
  | addressRegexI (p : String)
  | venueTypeEq (s : String)
  | indoorOutdoorEq (s : String)
deriving DecidableEq

/-- Evaluate a field-level condition against a document. -/
def evalAtom (a : MAtom) (e : Doc) : Bool :=
  match a with
  | .statusEq s => e.status == s
  | .startGe t => match e.start_date with | some v => decide (v ≥ t) | none => false
  | .startLe t => match e.start_date with | some v => decide (v ≤ t) | none => false
  | .startBetween a b =>
    match e.start_date with | some v => decide (a ≤ v) && decide (v ≤ b) | none => false
  | .endGe t => match e.end_date with | some v => decide (v ≥ t) | none => false
  | .endLe t => match e.end_date with | some v => decide (v ≤ t) | none => false
  | .endBetween a b =>
    match e.end_date with | some v => decide (a ≤ v) && decide (v ≤ b) | none => false
  | .titleRegexI p => strContainsCI e.title p
  | .descRegexI p => strContainsCI e.description p
  | .tagsRegexI p => e.tags.any (fun s => strContainsCI s p)
  | .categoryRegexI p => match e.category with | some c => strContainsCI c p | none => false
  | .priceRegexI p => match e.price with | some c => strContainsCI c p | none => false
  | .priceEqS s => e.price == some s
  | .pricingBaseEq n => e.pricing_base_price == some n
  | .pricingBaseLe n =>
    match e.pricing_base_price with | some v => decide (v ≤ n) | none => false
  | .pricingBaseGe n =>
    match e.pricing_base_price with | some v => decide (v ≥ n) | none => false
  | .priceDataMinEq n => e.price_data_min == some n
  | .priceDataMinLe n =>
    match e.price_data_min with | some v => decide (v ≤ n) | none => false
  | .priceDataMinGe n =>
    match e.price_data_min with | some v => decide (v ≥ n) | none => false
  | .priceDataMaxEq n => e.price_data_max == some n
  | .categoryEq s => e.category == some s
  | .categoryIn l => match e.category with | some c => l.contains c | none => false
  | .primaryCategoryEq s => e.primary_category == some s
  | .primaryCategoryIn l =>
    match e.primary_category with | some c => l.contains c | none => false
  | .secondaryCategoriesEq s => e.secondary_categories.contains s
  | .tagsIn l => e.tags.any (fun t => l.contains t)
  | .isFamilyFriendlyEq b => e.is_family_friendly == some b
  | .isAllAgesEq b => e.familySuitability_isAllAges == some b
  | .familyScoreGe n => match e.familyScore with | some v => decide (v ≥ n) | none => false
  | .ageMinLe n => match e.age_min with | some v => decide (v ≤ n) | none => false
  | .ageMinGe n => match e.age_min with | some v => decide (v ≥ n) | none => false
  | .ageMaxGe n => match e.age_max with | some v => decide (v ≥ n) | none => false
  | .ageRestrictionsRegexI p =>
    match e.age_restrictions with | some c => strContainsCI c p | none => false
  | .locationRegexI p => match e.location with | some c => strContainsCI c p | none => false
  | .venueAreaRegexI p => match e.venue_area with | some c => strContainsCI c p | none => false
  | .venueAreaRegexAny l =>
    match e.venue_area with | some c => l.any (fun p => strContainsCI c p) | none => false
  | .addressRegexI p => match e.address with | some c => strContainsCI c p | none => false
  | .venueTypeEq s => e.venue_type == some s
  | .indoorOutdoorEq s => e.indoor_outdoor == some s

/-- One boolean level above atoms: an atom, or an operator list of atoms. -/
inductive MCond where
  | atom (a : MAtom)
  | orA (l : List MAtom)
  | andA (l : List MAtom)
  | norA (l : List MAtom)
deriving DecidableEq

/-- Evaluate an `MCond`. -/
def evalCond (c : MCond) (e : Doc) : Bool :=
  match c with
  | .atom a => evalAtom a e
  | .orA l => l.any (fun a => evalAtom a e)
  | .andA l => l.all (fun a => evalAtom a e)
  | .norA l => l.all (fun a => ! evalAtom a e)

/-- Top clause level: a condition or an `$or` whose arms may themselves be
operator objects (the shape the optimized router's temporal clauses use). -/
inductive MClause where
  | cond (c : MCond)
  | orC (l : List MCond)
deriving DecidableEq

/-- Evaluate an `MClause`. -/
def evalClause (c : MClause) (e : Doc) : Bool :=
  match c with
  | .cond c0 => evalCond c0 e
  | .orC l => l.any (fun c0 => evalCond c0 e)

/-- A value stored under one key of a Python filter dict: a single clause,
or a list of clauses (under `$and` / `$or` / `$nor`). -/
inductive FVal where
  | one (c : MClause)
  | many (l : List MClause)
deriving DecidableEq

/-- A MongoDB filter dict built by the routers: insertion-ordered
association list with unique keys; assigning to an existing key replaces
its value (Python dict semantics — the source of the key-collision bug). -/
abbrev MongoFilter := List (String × FVal)

/-- Evaluate one dict entry: operator keys combine their list of clauses,
any other key holds a single clause about that field. -/
def evalEntry (e : Doc) : String × FVal → Bool
  | ("$and", .many l) => l.all (fun c => evalClause c e)
  | ("$or", .many l) => l.any (fun c => evalClause c e)
  | ("$nor", .many l) => l.all (fun c => ! evalClause c e)
  | (_, .one c) => evalClause c e
  | (_, .many _) => false

/-- A document matches a filter dict iff it satisfies every entry. -/
def evalFilter (f : MongoFilter) (e : Doc) : Bool := f.all (fun kv => evalEntry e kv)

/-- Python `d[k] = v` on a dict: replace the value if the key exists,
otherwise append the new entry. -/
def dictSet : MongoFilter → String → FVal → MongoFilter
  | [], k, v => [(k, v)]
  | (k0, v0) :: rest, k, v =>
    if k0 = k then (k, v) :: rest else (k0, v0) :: dictSet rest k v

/-- Python `d.pop(k, None)`. -/
def dictPop (f : MongoFilter) (k : String) : MongoFilter := f.filter (fun kv => kv.1 != k)

/-- Python `d.get(k)` (also `k in d`). -/
def dictGet (f : MongoFilter) (k : String) : Option FVal := List.lookup k f

/-! ## events.py `get_events` filter construction (routers/events.py lines
104-178).

Parameters mirror the query parameters that shape the filter; the
geo-coordinate branch and sort options are outside the verified claims and
are omitted.  `date_filter or date_range` is modelled as one merged
optional argument. -/

/-- The `$and` value installed for a predefined date filter (lines
121-124): events that start before the range ends and end after the range
starts. -/
def eventsDateClause (filterStart filterEnd : Int) : FVal :=
  .many [.cond (.atom (.startLe filterEnd)), .cond (.atom (.endGe filterStart))]

/-- The free-events `$or` value (lines 146-152). -/
def eventsFreePriceVal : FVal :=
  .many [.cond (.atom (.priceRegexI "free")), .cond (.atom (.priceDataMinEq 0)),
    .cond (.atom (.priceDataMaxEq 0))]

/-- The category `$or` value (lines 155-159). -/
def eventsCategoryVal (c : String) : FVal :=
  .many [.cond (.atom (.categoryEq c)), .cond (.atom (.tagsIn [c]))]

/-- Build the `get_events` MongoDB filter dict, following the source's
assignment order.  `utcNow` models `datetime.utcnow()`. -/
def get_events_filter (dateFilter : Option String) (dateFrom dateTo : Option Int)
    (priceMin priceMax : Option Int) (category : Option String) (area : Option String)
    (familyFriendly : Option Bool) (ageGroup : Option String) (utcNow : Int) : MongoFilter :=
  let fq : MongoFilter := [("status", .one (.cond (.atom (.statusEq "active"))))]
  let fq :=
    match dateFilter with
    | some df =>
      if df != "" && pyLower df != "all" then
        match calculate_date_range_now df utcNow with
        | some (fs, fe) => dictSet (dictPop fq "end_date") "$and" (eventsDateClause fs fe)
        | none => dictSet fq "end_date" (.one (.cond (.atom (.endGe utcNow))))
      else dictSet fq "end_date" (.one (.cond (.atom (.endGe utcNow))))
    | none => dictSet fq "end_date" (.one (.cond (.atom (.endGe utcNow))))
  let fq :=
    match dateFrom, dateTo with
    | some a, some b => dictSet fq "start_date" (.one (.cond (.atom (.startBetween a b))))
    | some a, none => dictSet fq "start_date" (.one (.cond (.atom (.startGe a))))
    | none, some b => dictSet fq "start_date" (.one (.cond (.atom (.startLe b))))
    | none, none => fq
  let fq :=
    if priceMin.isSome || priceMax.isSome then
      if priceMin == some 0 && priceMax == some 0 then dictSet fq "$or" eventsFreePriceVal
      else fq
    else fq
  let fq :=
    match category with
    | some c => dictSet fq "$or" (eventsCategoryVal c)
    | none => fq
  let fq :=
    match area with
    | some a => dictSet fq "location" (.one (.cond (.atom (.locationRegexI a))))
    | none => fq
  let fq :=
    match familyFriendly with
    | some b => dictSet fq "is_family_friendly" (.one (.cond (.atom (.isFamilyFriendlyEq b))))
    | none => fq
  let fq :=
    match ageGroup with
    | some g =>
      if g = "child" then
        dictSet (dictSet fq "age_min" (.one (.cond (.atom (.ageMinLe 12)))))
          "age_max" (.one (.cond (.atom (.ageMaxGe 0))))
      else if g = "teen" then
        dictSet (dictSet fq "age_min" (.one (.cond (.atom (.ageMinLe 18)))))
          "age_max" (.one (.cond (.atom (.ageMaxGe 13))))
      else if g = "adult" then
        dictSet (dictSet fq "age_min" (.one (.cond (.atom (.ageMinLe 99)))))
          "age_max" (.one (.cond (.atom (.ageMaxGe 18))))
      else if g = "family" then
        dictSet fq "is_family_friendly" (.one (.cond (.atom (.isFamilyFriendlyEq true))))
      else fq
    | none => fq
  fq

/-! ## ai_search.py `ai_powered_search` filter construction (routers/
ai_search.py lines 42-89).

Dates arrive as ISO strings from the query analysis; unparseable ones are
logged and skipped, so they are modelled as already-parsed optional
instants. -/

/-- The family-friendly `$or` value of the v1 router (lines 69-74):
inclusion only, no adult-content exclusion. -/
def v1FamilyVal : FVal :=
  .many [.cond (.atom (.isAllAgesEq true)),
    .cond (.atom (.tagsIn ["family-friendly", "kids", "children"])),
    .cond (.atom (.familyScoreGe 70))]

/-- Build the v1 AI-search MongoDB filter dict from the fields of the
query analysis. -/
def ai_search_filter (dateFrom dateTo : Option Int) (categories : List String)
    (familyFriendly : Option Bool) (priceMin priceMax : Option Int)
    (locationPreferences : List String) : MongoFilter :=
  let fq : MongoFilter := [("status", .one (.cond (.atom (.statusEq "active"))))]
  let fq :=
    match dateFrom, dateTo with
    | some a, some b => dictSet fq "start_date" (.one (.cond (.atom (.startBetween a b))))
    | some a, none => dictSet fq "start_date" (.one (.cond (.atom (.startGe a))))
    | none, some b => dictSet fq "start_date" (.one (.cond (.atom (.startLe b))))
    | none, none => fq
  let fq :=
    if categories.isEmpty then fq
    else dictSet fq "category" (.one (.cond (.atom (.categoryIn categories))))
  let fq :=
    if familyFriendly == some true then dictSet fq "$or" v1FamilyVal else fq
  let fq :=
    match priceMin, priceMax with
    | some a, some b =>
      dictSet fq "pricing.base_price" (.one (.cond (.andA [.pricingBaseGe a, .pricingBaseLe b])))
    | some a, none => dictSet fq "pricing.base_price" (.one (.cond (.atom (.pricingBaseGe a))))
    | none, some b => dictSet fq "pricing.base_price" (.one (.cond (.atom (.pricingBaseLe b))))
    | none, none => fq
  let fq :=
    if locationPreferences.isEmpty then fq
    else dictSet fq "venue.area" (.one (.cond (.atom (.venueAreaRegexAny locationPreferences))))
  fq

/-! ## ai_search_optimized.py `optimized_ai_search` filter construction
(routers/ai_search_optimized.py lines 32-377).

`now` models `datetime.now()` (the server wall clock, naive), used both
for the base `end_date` cut-off and by the temporal clauses. -/

/-- Stop words dropped from keyword text search (line 37). -/
def v2StopWords : List String :=
  ["where", "can", "i", "my", "take", "what", "is", "are", "the", "a", "an", "to", "for",
   "in", "on", "at", "this", "that"]

/-- Short but important keywords kept anyway (line 39). -/
def v2ImportantShort : List String := ["kids", "kid", "art", "gym", "bar", "spa", "zoo", "fun"]

/-- Meaningful keywords of a query (lines 40-43). -/
def v2MeaningfulKeywords (q : String) : List String :=
  (pyWords (pyLower q)).filter fun w =>
    (! v2StopWords.contains (pyLower w) && w.length > 2) || v2ImportantShort.contains (pyLower w)

/-- Text-search `$or` clause for one keyword (lines 59-66). -/
def v2TextClause (kw : String) : MClause :=
  .cond (.orA [.titleRegexI kw, .descRegexI kw, .tagsRegexI kw, .categoryRegexI kw])

/-- Text conditions: first three meaningful keywords (line 58). -/
def v2TextConditions (q : String) : List MClause :=
  ((v2MeaningfulKeywords q).take 3).map v2TextClause

/-- The recurring temporal `$or` shape (e.g. lines 82-91): events starting
in the window, ending in the window, or spanning it. -/
def overlapTriple (a b : Int) : MClause :=
  .orC [.atom (.startBetween a b), .atom (.endBetween a b), .andA [.startLe a, .endGe b]]

/-- Temporal clause detection (lines 76-242): ordered if/elif chain, first
match wins. -/
def v2TemporalCond (ql : String) (now : Int) : Option MClause :=
  if strContains ql "today" || strContains ql "tonight" then
    let todayStart :=
      if strContains ql "tonight" then midnightOf now + 18 * usPerHour else midnightOf now
    let todayEnd := midnightOf now + 86399999999
    some (overlapTriple todayStart todayEnd)
  else if strContains ql "tomorrow" then
    let tomorrowStart := midnightOf now + usPerDay
    some (overlapTriple tomorrowStart (tomorrowStart + 86399999999))
  else if strContains ql "this morning" then
    some (overlapTriple (midnightOf now + 6 * usPerHour) (midnightOf now + 12 * usPerHour))
  else if strContains ql "this afternoon" then
    some (overlapTriple (midnightOf now + 12 * usPerHour) (midnightOf now + 18 * usPerHour))
  else if strContains ql "this weekend" || strContains ql "weekend" then
    let weekendStart :=
      if pyWeekday now ≥ 5 then
        if pyWeekday now = 5 then midnightOf now else midnightOf now - usPerDay
      else
        let daysUntilSaturday := (5 - pyWeekday now) % 7
        let daysUntilSaturday := if daysUntilSaturday = 0 then 7 else daysUntilSaturday
        midnightOf now + daysUntilSaturday * usPerDay
    some (overlapTriple weekendStart (weekendStart + usPerDay + 86399999999))
  else if strContains ql "this week" || strContains ql "events this week" then
    let monday := midnightOf now - pyWeekday now * usPerDay
    some (overlapTriple monday (monday + 6 * usPerDay + 86399999999))
  else if strContains ql "next week" || strContains ql "events next week" then
    let nextMonday := midnightOf now - pyWeekday now * usPerDay + 7 * usPerDay
    some (overlapTriple nextMonday (nextMonday + 6 * usPerDay + 86399999999))
  else if strContains ql "next weekend" then
    let daysUntilSaturday := (5 - pyWeekday now) % 7
    let daysUntilSaturday := if daysUntilSaturday = 0 then 7 else daysUntilSaturday
    let nextWeekendStart := midnightOf now + (daysUntilSaturday + 7) * usPerDay
    some (overlapTriple nextWeekendStart (nextWeekendStart + usPerDay + 86399999999))
  else if strContains ql "this month" || strContains ql "events this month" then
    let c := civilFromDays (dayIndexOf now)
    let y := c.1
    let m := c.2.1
    let monthStart := daysFromCivil y m 1 * usPerDay
    let monthEnd :=
      (if m = 12 then daysFromCivil (y + 1) 1 1 else daysFromCivil y (m + 1) 1) * usPerDay - 1
    some (.cond (.atom (.startBetween monthStart monthEnd)))
  else if strContains ql "next month" || strContains ql "events next month" then
    let c := civilFromDays (dayIndexOf now)
    let y := c.1
    let m := c.2.1
    if m = 12 then
      let nextMonthStart := daysFromCivil (y + 1) 1 1 * usPerDay
      let nextMonthEnd := daysFromCivil (y + 1) 2 1 * usPerDay - 1
      some (.cond (.atom (.startBetween nextMonthStart nextMonthEnd)))
    else
      let nextMonthStart := daysFromCivil y (m + 1) 1 * usPerDay
      let nextMonthEnd :=
        if m = 11 then daysFromCivil (y + 1) 1 1 * usPerDay - 1
        else daysFromCivil y (m + 2) 1 * usPerDay - 1
      some (.cond (.atom (.startBetween nextMonthStart nextMonthEnd)))
  else none

/-- Price clause detection (lines 244-267). -/
def v2PriceCond (ql : String) : Option MClause :=
  if strContains ql "free" || strContains ql "free events" then
    some (.cond (.orA [.priceRegexI "free", .pricingBaseEq 0, .priceEqS "0", .priceEqS "Free"]))
  else if strContains ql "cheap" || strContains ql "budget" || strContains ql "affordable" then
    some (.cond (.orA [.pricingBaseLe 50, .priceDataMinLe 50]))
  else if strContains ql "expensive" || strContains ql "premium" || strContains ql "luxury" then
    some (.cond (.orA [.pricingBaseGe 200, .priceDataMinGe 200]))
  else none

/-- Dubai-area lexicon (lines 270-278), in source iteration order. -/
def v2LocationTable : List (String × List String) :=
  [("downtown", ["downtown", "dubai mall", "burj khalifa"]),
   ("marina", ["marina", "marina walk", "marina mall"]),
   ("jbr", ["jbr", "jumeirah beach residence", "the beach", "the walk"]),
   ("business bay", ["business bay"]),
   ("difc", ["difc", "financial centre"]),
   ("jumeirah", ["jumeirah", "jumeirah beach"]),
   ("deira", ["deira", "old dubai", "gold souk"])]

/-- First area whose pattern list matches the query (lines 280-289). -/
def v2LocationHit (ql : String) : Option String :=
  (v2LocationTable.find? fun ap => ap.2.any fun p => strContains ql p).map (·.1)

/-- Location clause for a detected area (lines 282-288). -/
def v2LocationClause (a : String) : MClause :=
  .cond (.orA [.venueAreaRegexI a, .locationRegexI a, .addressRegexI a])

/-- Category lexicon (lines 292-300), in source iteration order. -/
def v2CategoryTable : List (String × List String) :=
  [("music", ["concerts", "music", "concert"]),
   ("arts", ["art", "exhibitions", "exhibition", "gallery"]),
   ("sports", ["sports", "fitness", "workout", "gym"]),
   ("dining", ["restaurant", "dining", "food", "brunch", "dinner"]),
   ("nightlife", ["nightlife", "bar", "club", "nightclub"]),
   ("cultural", ["cultural", "museum", "heritage"]),
   ("educational", ["workshops", "classes", "workshop", "class", "learning"])]

/-- First category whose pattern list matches the query (lines 302-312). -/
def v2CategoryHit (ql : String) : Option (String × List String) :=
  v2CategoryTable.find? fun cp => cp.2.any fun p => strContains ql p

/-- Category clause for a detected category (lines 304-311). -/
def v2CategoryClause (c : String) (patterns : List String) : MClause :=
  .cond (.orA [.categoryEq c, .primaryCategoryEq c, .secondaryCategoriesEq c, .tagsIn patterns])

/-- Kid-query signal words (line 315). -/
def v2KidsWords : List String := ["kids", "kid", "children", "child"]

/-- Family-query signal words (line 336). -/
def v2FamilyWords : List String := ["family", "family-friendly", "family events"]

/-- Adults-only signal words (line 344). -/
def v2AdultWords : List String := ["adults only", "adult only", "18+"]

/-- Kid-friendly inclusion clause (lines 317-326). -/
def v2KidsInclusionClause : MClause :=
  .cond (.orA [.isFamilyFriendlyEq true, .familyScoreGe 70,
    .tagsIn ["family-friendly", "family", "kids", "children"], .ageMinLe 12,
    .categoryIn ["family", "educational", "cultural", "arts"],
    .primaryCategoryIn ["family", "educational", "cultural", "arts"]])

/-- Adult-content exclusion clause paired with the kids inclusion (lines
328-335). -/
def v2KidsExclusionClause : MClause :=
  .cond (.norA [.ageMinGe 18, .tagsIn ["nightlife", "18+", "adult-only", "adults-only"],
    .categoryEq "nightlife", .primaryCategoryEq "nightlife"])

/-- Family-friendly inclusion clause of the `family` branch (lines
337-343); this branch installs no exclusion clause. -/
def v2FamilyInclusionClause : MClause :=
  .cond (.orA [.isFamilyFriendlyEq true, .familyScoreGe 70,
    .tagsIn ["family-friendly", "family", "kids"]])

/-- Adults-only clause (lines 345-350). -/
def v2AdultClause : MClause :=
  .cond (.orA [.ageMinGe 18, .ageRestrictionsRegexI "18+"])

/-- Family/age conditions appended by the if/elif chain at lines 315-350. -/
def v2FamilyConds (ql : String) : List MClause :=
  if v2KidsWords.any (fun w => strContains ql w) then
    [v2KidsInclusionClause, v2KidsExclusionClause]
  else if v2FamilyWords.any (fun w => strContains ql w) then [v2FamilyInclusionClause]
  else if v2AdultWords.any (fun w => strContains ql w) then [v2AdultClause]
  else []

/-- Indoor/outdoor clause detection (lines 352-366). -/
def v2IndoorOutdoorCond (ql : String) : Option MClause :=
  if strContains ql "outdoor" || strContains ql "outdoor activities" then
    some (.cond (.orA [.venueTypeEq "outdoor", .indoorOutdoorEq "outdoor"]))
  else if strContains ql "indoor" || strContains ql "indoor activities" then
    some (.cond (.orA [.venueTypeEq "indoor", .indoorOutdoorEq "indoor"]))
  else none

/-- The accumulated `must_conditions` list, in the source's append order:
text-search conditions, then price, location, category, family/age,
indoor/outdoor, and finally the temporal clause (lines 56-373). -/
def v2MustConditions (q : String) (now : Int) : List MClause :=
  let ql := pyLower q
  v2TextConditions q ++ (v2PriceCond ql).toList
    ++ ((v2LocationHit ql).map v2LocationClause).toList
    ++ ((v2CategoryHit ql).map fun cp => v2CategoryClause cp.1 cp.2).toList
    ++ v2FamilyConds ql ++ (v2IndoorOutdoorCond ql).toList
    ++ (v2TemporalCond ql now).toList

/-- The final v2 filter dict (lines 49-54 and 368-377): the base filter
plus a single `$and` of all must conditions (omitted when empty). -/
def buildOptimizedFilter (q : String) (now : Int) : MongoFilter :=
  let baseFilter : MongoFilter :=
    [("status", .one (.cond (.atom (.statusEq "active")))),
     ("end_date", .one (.cond (.atom (.endGe now))))]
  let mc := v2MustConditions q now
  if mc.isEmpty then baseFilter else dictSet baseFilter "$and" (.many mc)

/-! ## `filter_events_by_day_type` (date_utils.py lines 210-268).

Event dicts carry `start_date` / `end_date` that may be datetimes,
ISO strings, or absent.  A parseable ISO string and a datetime are both
modelled as a parsed instant; an unparseable string is `badStr`; an absent
field (or `.get` default) is `missing`. -/

/-- A date-bearing field of an event dict. -/
inductive DateField where
  | dtv (t : Int)
  | badStr
  | missing
deriving DecidableEq

/-- An event dict as consumed by the day-type filter. -/
structure PyEvent where
  name : String
  start_date : DateField
  end_date : DateField
deriving DecidableEq

/-- The parsed start of an event: `None`/missing and unparseable strings
make the loop skip the event (`continue`). -/
def parsedStart (e : PyEvent) : Option Int :=
  match e.start_date with
  | .dtv t => some t
  | _ => none

/-- The parsed end of an event, defaulting to the parsed start when the
end is absent or unparseable (lines 230 and 242-246). -/
def parsedEnd (e : PyEvent) (s : Int) : Int :=
  match e.end_date with
  | .dtv t => t
  | _ => s

/-- The weekends-branch keep test (lines 228-250): the event overlaps the
resolved this-weekend window `[ws, we]`. -/
def weekendsKeep (ws we : Int) (e : PyEvent) : Bool :=
  match parsedStart e with
  | some s => decide (s ≤ we) && decide (parsedEnd e s ≥ ws)
  | none => false

/-- The weekdays-branch keep test (lines 254-266): the event *starts* on a
Dubai weekday. -/
def weekdaysKeep (e : PyEvent) : Bool :=
  match parsedStart e with
  | some s => is_weekday s
  | none => false

/-- The weekends-branch accumulation loop. -/
def weekendsLoop (ws we : Int) : List PyEvent → List PyEvent
  | [] => []
  | e :: rest =>
    if weekendsKeep ws we e then e :: weekendsLoop ws we rest else weekendsLoop ws we rest

/-- The weekdays-branch accumulation loop. -/
def weekdaysLoop : List PyEvent → List PyEvent
  | [] => []
  | e :: rest => if weekdaysKeep e then e :: weekdaysLoop rest else weekdaysLoop rest

/-- `filter_events_by_day_type(events, day_type)`.  The weekends branch
resolves this weekend from the current time (`calculate_date_range
('this_weekend')` with no reference, line 226); `utcNow` models that
clock read.  Any other `day_type` returns the empty accumulator. -/
def filter_events_by_day_type (events : List PyEvent) (dayType : String) (utcNow : Int) :
    List PyEvent :=
  if dayType = "weekends" then
    match calculate_date_range_now "this_weekend" utcNow with
    | some (ws, we) => weekendsLoop ws we events
    | none => []
  else if dayType = "weekdays" then weekdaysLoop events
  else []

/-! ## OpenAI ranking service (services/openai_service.py lines 164-274).

The external call and the layered JSON extraction are modelled by their
outcome: an exception (API error, timeout, or extraction failure), a
parsed JSON object, a parsed JSON array of records, or some other JSON
value (which makes the code raise `ValueError`, caught by the same
handler).  Scores are rationals standing in for Python floats. -/

/-- `ScoredEvent` (openai_service.py lines 32-37). -/
structure ScoredEvent where
  event_id : String
  score : ℚ
  reasoning : String
  highlights : List String
deriving DecidableEq

/-- One record of the parsed external response; each field may be absent
or of the wrong shape (`none`). -/
structure RawRecord where
  event_id : Option String
  score : Option ℚ
  reasoning : Option String
  highlights : Option (List String)
deriving DecidableEq

/-- `ScoredEvent(**result)` validation (lines 252-257): the three required
fields must be present (`highlights` defaults to `[]`); otherwise the
record is skipped. -/
def validateRecord (r : RawRecord) : Option ScoredEvent :=
  match r.event_id, r.score, r.reasoning with
  | some i, some s, some why => some ⟨i, s, why, r.highlights.getD []⟩
  | _, _, _ => none

/-- Outcome of the external ranking call plus JSON extraction. -/
inductive ExtOutcome where
  | exc
  | parsedDict (r : RawRecord)
  | parsedList (rs : List RawRecord)
  | parsedOther
deriving DecidableEq

/-- Stable descending insertion by score (Python `list.sort(key=score,
reverse=True)` is stable). -/
def insertScoredDesc (x : ScoredEvent) : List ScoredEvent → List ScoredEvent
  | [] => [x]
  | y :: ys => if y.score ≤ x.score then x :: y :: ys else y :: insertScoredDesc x ys

/-- Sort scored events by descending score (line 260). -/
def sortScoredDesc (l : List ScoredEvent) : List ScoredEvent := l.foldr insertScoredDesc []

/-- The exception-path fallback (lines 264-274): one constant-score record
per candidate in the capped prefix `events[:10]`. -/
def fallbackScored (events : List Doc) : List ScoredEvent :=
  (events.take 10).map fun e => ⟨e.id, 50, "Event available in Dubai", ["Local activity"]⟩

/-- `match_events(query, events, analysis)` as a function of the service
state, the candidate list and the external outcome.  The query and
analysis only shape the prompt and do not affect the result structure.
`parsedOther` raises `ValueError` inside the `try`, so it lands in the
same fallback as `exc`. -/
def match_events (enabled : Bool) (events : List Doc) (ext : ExtOutcome) : List ScoredEvent :=
  if !enabled || events.isEmpty then []
  else
    match ext with
    | .exc => fallbackScored events
    | .parsedOther => fallbackScored events
    | .parsedDict r => sortScoredDesc ([r].filterMap validateRecord)
    | .parsedList rs => sortScoredDesc (rs.filterMap validateRecord)

/-- The v2 service fallback `scored_events`
(openai_service_optimized.py lines 366-371): constant score 50 and the
fixed reason string for the capped prefix `events[:10]`. -/
def analyzeScoreFallbackScored (events : List Doc) : List (String × ℚ × String) :=
  (events.take 10).map fun e => (e.id, 50, "Potential match")

/-- `quick_score` (ai_search.py lines 130-137): the number of distinct
query words shared with the candidate's title, first 100 description
characters, and tags. -/
def quick_score (q : String) (e : Doc) : Nat :=
  let queryWords := dedupFirst (pyWords (pyLower q))
  let titleWords := pyWords (pyLower e.title)
  let descWords := pyWords (pyLower (pyTake 100 e.description))
  let tagsWords := pyWords (pyLower (String.intercalate " " e.tags))
  let allWords := titleWords ++ descWords ++ tagsWords
  (queryWords.filter fun w => allWords.contains w).length

/-! ## Pagination metadata (ai_search_optimized.py lines 496-515,
ai_search.py lines 167-185). -/

/-- `total_pages = (total + per_page - 1) // per_page` (both routers). -/
def total_pages_calc (total perPage : Nat) : Nat := (total + perPage - 1) / perPage

/-- v2 `has_next`: `page < total_pages` (ai_search_optimized.py line 513). -/
def v2_has_next (page total perPage : Nat) : Bool :=
  decide (page < total_pages_calc total perPage)

/-- v1 `skip = (page - 1) * per_page` (ai_search.py line 92). -/
def v1_skip (page perPage : Nat) : Nat := (page - 1) * perPage

/-- v1 `has_next`: `skip + per_page < total` (ai_search.py line 183). -/
def v1_has_next (page total perPage : Nat) : Bool :=
  decide (v1_skip page perPage + perPage < total)

/-! ## Specification-side definitions.

These follow the words of the claims (not the source); they are only
compared against the source-derived definitions above. -/

/-- Modelled from the claim wording of C3: some Dubai-civil day in
`[s, e]` is a Saturday or Sunday. -/
def specSomeDayWeekend (s e : Int) : Bool :=
  let ds := dayIndexOf (toDubai s)
  let de := dayIndexOf (toDubai e)
  decide (ds ≤ de) &&
    (List.range ((de - ds).toNat + 1)).any fun i =>
      ((ds + (i : Int) + 3) % 7 == 5) || ((ds + (i : Int) + 3) % 7 == 6)

/-- Modelled from the claim wording of C3: some Dubai-civil day in
`[s, e]` is a Monday through Friday. -/
def specSomeDayWeekday (s e : Int) : Bool :=
  let ds := dayIndexOf (toDubai s)
  let de := dayIndexOf (toDubai e)
  decide (ds ≤ de) &&
    (List.range ((de - ds).toNat + 1)).any fun i => (ds + (i : Int) + 3) % 7 ≤ 4

/-- Modelled from the claim wording of C1: the Saturday 00:00 (Dubai) of
the weekend containing `t`, converted to UTC — meaningful when `t` falls
on a Dubai Saturday or Sunday. -/
def specWeekendSatStartContaining (t : Int) : Int :=
  toUTC (midnightOf (toDubai t) - ((pyWeekday (toDubai t) - 5) % 7) * usPerDay)

/-! ## Helper lemmas -/

/-- Adding whole days commutes with the day quotient. -/
lemma ediv_add_mul_usPerDay (x k : Int) : (x + k * usPerDay) / usPerDay = x / usPerDay + k := by
  simp only [usPerDay]; omega

/-- The day quotient of a whole-day multiple. -/
lemma mul_usPerDay_ediv (k : Int) : k * usPerDay / usPerDay = k := by
  simp only [usPerDay]; omega

/-- Closed form of `get_weekend_start_end` on a Dubai wall-clock datetime:
the start lands `(5 - weekday) mod 7` days ahead, at midnight (the dead
branch of the source cannot fire). -/
lemma weekendStartEndD_eq (d : Int) :
    weekendStartEndD d =
      (toUTC ((dayIndexOf d + (5 - pyWeekday d) % 7) * usPerDay),
       toUTC ((dayIndexOf d + (5 - pyWeekday d) % 7) * usPerDay + usPerDay + 86399000000)) := by
  simp only [weekendStartEndD, midnightOf, dayIndexOf, pyWeekday]
  split_ifs with h
  · exfalso
    simp only [usPerDay] at h
    omega
  · rw [ediv_add_mul_usPerDay]

/-- Weekday of a midnight instant given as a day multiple. -/
lemma pyWeekday_of_day_mul (k : Int) : pyWeekday (k * usPerDay) = (k + 3) % 7 := by
  simp only [pyWeekday, dayIndexOf, mul_usPerDay_ediv]

/-- The weekends accumulation loop is a `List.filter`. -/
lemma weekendsLoop_eq_filter (ws we : Int) (l : List PyEvent) :
    weekendsLoop ws we l = l.filter (weekendsKeep ws we) := by
  induction l with
  | nil => rfl
  | cons e rest ih =>
    simp only [weekendsLoop, List.filter]
    rcases h : weekendsKeep ws we e
    · simp [h, ih]
    · simp [h, ih]

/-- The weekdays accumulation loop is a `List.filter`. -/
lemma weekdaysLoop_eq_filter (l : List PyEvent) :
    weekdaysLoop l = l.filter weekdaysKeep := by
  induction l with
  | nil => rfl
  | cons e rest ih =>
    simp only [weekdaysLoop, List.filter]
    rcases h : weekdaysKeep e
    · simp [h, ih]
    · simp [h, ih]

/-- Insertion grows the length by one. -/
lemma length_insertScoredDesc (x : ScoredEvent) (l : List ScoredEvent) :
    (insertScoredDesc x l).length = l.length + 1 := by
  induction l with
  | nil => rfl
  | cons y ys ih =>
    simp only [insertScoredDesc]
    split_ifs <;> simp [ih]

/-- Sorting preserves the length. -/
lemma length_sortScoredDesc (l : List ScoredEvent) :
    (sortScoredDesc l).length = l.length := by
  induction l with
  | nil => rfl
  | cons x xs ih =>
    show (insertScoredDesc x (sortScoredDesc xs)).length = xs.length + 1
    rw [length_insertScoredDesc, ih]

/-! ## Claims -/

/-- Claim C2 (confirmed): for every instant `t`, `get_weekend_start_end t`
starts on a Dubai-civil Saturday at 00:00:00, never a Friday; the end is
exactly start + 1 day 23:59:59, on the immediately following Sunday, never
a Saturday. -/
theorem C2_weekend_range_shape (t : Int) :
    pyWeekday (toDubai (get_weekend_start_end t).1) = 5 ∧
    pyWeekday (toDubai (get_weekend_start_end t).1) ≠ 4 ∧
    timeOfDayOf (toDubai (get_weekend_start_end t).1) = 0 ∧
    (get_weekend_start_end t).2 = (get_weekend_start_end t).1 + usPerDay + 86399000000 ∧
    pyWeekday (toDubai (get_weekend_start_end t).2) = 6 ∧
    pyWeekday (toDubai (get_weekend_start_end t).2) ≠ 5 := by
  simp only [get_weekend_start_end, weekendStartEndD_eq, toUTC, toDubai, sub_add_cancel]
  refine ⟨?_, ?_, ?_, by ring, ?_, ?_⟩
  · rw [pyWeekday_of_day_mul]
    simp only [pyWeekday, dayIndexOf, usPerDay]
    omega
  · rw [pyWeekday_of_day_mul]
    simp only [pyWeekday, dayIndexOf, usPerDay]
    omega
  · simp only [timeOfDayOf, usPerDay]
    omega
  · simp only [pyWeekday, dayIndexOf, usPerDay]
    omega
  · simp only [pyWeekday, dayIndexOf, usPerDay]
    omega

/-- Claim C1 (counterexample): at a reference instant on a Dubai-civil
Sunday (2025-01-05 12:00 Dubai, day index 20093), `calculate_date_range
('this_weekend')` returns the *next* Saturday (day 20099) as start, not
the Saturday of the weekend containing the instant (day 20092). -/
theorem C1_thisweekend_sunday_counterexample :
    is_weekend_day (20093 * usPerDay + 8 * usPerHour) = true ∧
    (calculate_date_range "this_weekend" (20093 * usPerDay + 8 * usPerHour)
        (20093 * usPerDay + 8 * usPerHour)).map Prod.fst = some (toUTC (20099 * usPerDay)) ∧
    toUTC (20099 * usPerDay) ≠
      specWeekendSatStartContaining (20093 * usPerDay + 8 * usPerHour) := by
  decide

/-- Claim C1 (amended): resolving `this_weekend` at a reference instant on
a Dubai Saturday yields the weekend containing the instant (start = that
Saturday 00:00 Dubai); at a reference instant on a Dubai Sunday it yields
the *following* weekend (start = Dubai midnight six days later). -/
theorem C1_thisweekend_amended (t utcNow : Int) :
    (pyWeekday (toDubai t) = 5 →
      calculate_date_range "this_weekend" t utcNow =
        some (toUTC (midnightOf (toDubai t)),
          toUTC (midnightOf (toDubai t) + usPerDay + 86399000000))) ∧
    (pyWeekday (toDubai t) = 6 →
      calculate_date_range "this_weekend" t utcNow =
        some (toUTC (midnightOf (toDubai t) + 6 * usPerDay),
          toUTC (midnightOf (toDubai t) + 7 * usPerDay + 86399000000))) := by
  have hcdr : calculate_date_range "this_weekend" t utcNow =
      some (weekendStartEndD (toDubai t)) := rfl
  rw [hcdr, weekendStartEndD_eq]
  constructor
  · intro h5
    rw [h5]
    simp only [toUTC, midnightOf, dayIndexOf, Option.some.injEq, Prod.mk.injEq, usPerDay]
    omega
  · intro h6
    rw [h6]
    simp only [toUTC, midnightOf, dayIndexOf, Option.some.injEq, Prod.mk.injEq, usPerDay]
    omega

/-- Claim C1 (witness): the amended statement at a concrete Saturday noon
(2025-01-04, day 20092) and a concrete Sunday noon (2025-01-05, day
20093), Dubai time. -/
theorem C1_thisweekend_amended_witness :
    calculate_date_range "this_weekend" (20092 * usPerDay + 8 * usPerHour) 0 =
      some (toUTC (midnightOf (toDubai (20092 * usPerDay + 8 * usPerHour))),
        toUTC (midnightOf (toDubai (20092 * usPerDay + 8 * usPerHour)) + usPerDay
          + 86399000000)) ∧
    calculate_date_range "this_weekend" (20093 * usPerDay + 8 * usPerHour) 0 =
      some (toUTC (midnightOf (toDubai (20093 * usPerDay + 8 * usPerHour)) + 6 * usPerDay),
        toUTC (midnightOf (toDubai (20093 * usPerDay + 8 * usPerHour)) + 7 * usPerDay
          + 86399000000)) :=
  ⟨(C1_thisweekend_amended (20092 * usPerDay + 8 * usPerHour) 0).1 (by decide),
   (C1_thisweekend_amended (20093 * usPerDay + 8 * usPerHour) 0).2 (by decide)⟩

/-- Claim C10 (confirmed): any `range_type` other than the eight
range-producing kinds (in particular `weekdays`, `weekends`, and arbitrary
unrecognized strings) does not raise and returns exactly the `today`
range of the reference instant: Dubai-civil midnight through 23:59:59.999999
of its day, converted to UTC. -/
theorem C10_unknown_filter_today (s : String) (t utcNow : Int)
    (h1 : s ≠ "today") (h2 : s ≠ "tomorrow") (h3 : s ≠ "this_week") (h4 : s ≠ "next_week")
    (h5 : s ≠ "this_weekend") (h6 : s ≠ "next_weekend") (h7 : s ≠ "this_month")
    (h8 : s ≠ "next_month") :
    calculate_date_range s t utcNow =
      some (toUTC (midnightOf (toDubai t)), toUTC (midnightOf (toDubai t) + 86399999999)) := by
  simp [calculate_date_range, calcDateRangeD, todayRangeD, h1, h2, h3, h4, h5, h6, h7, h8]

/-- Claim C10 (witness): the `weekends` day-type kind resolves to the
today range at a concrete instant. -/
theorem C10_unknown_filter_today_witness :
    calculate_date_range "weekends" (20093 * usPerDay) 0 =
      some (toUTC (midnightOf (toDubai (20093 * usPerDay))),
        toUTC (midnightOf (toDubai (20093 * usPerDay)) + 86399999999)) :=
  C10_unknown_filter_today "weekends" (20093 * usPerDay) 0 (by decide) (by decide) (by decide)
    (by decide) (by decide) (by decide) (by decide) (by decide)

/-- Claim C3 (counterexample): an event lying entirely on a past Saturday
(2024-12-28, day 20085) has a weekend day in its span, yet
`filter_events_by_day_type(..., 'weekends')` drops it when the current
time is Monday 2025-01-06 (day 20094) — the code keeps only events
overlapping the *resolved this-weekend window*, not events with any
weekend day in their span; and an event running Saturday (day 20092)
through Monday (day 20094) has weekdays in its span, yet the `weekdays`
branch drops it because only the *start* day is tested. -/
theorem C3_day_type_filter_counterexample :
    specSomeDayWeekend (20085 * usPerDay + 10 * usPerHour)
      (20085 * usPerDay + 10 * usPerHour) = true ∧
    filter_events_by_day_type
      [⟨"old saturday event", .dtv (20085 * usPerDay + 10 * usPerHour),
        .dtv (20085 * usPerDay + 10 * usPerHour)⟩] "weekends"
      (20094 * usPerDay + 8 * usPerHour) = [] ∧
    specSomeDayWeekday (20092 * usPerDay) (20094 * usPerDay) = true ∧
    filter_events_by_day_type
      [⟨"sat to monday event", .dtv (20092 * usPerDay), .dtv (20094 * usPerDay)⟩]
      "weekdays" (20094 * usPerDay + 8 * usPerHour) = [] := by
  decide

/-- Claim C3 (amended): `filter_events_by_day_type(events, 'weekends')`
keeps exactly the events with a parseable start that overlap the
this-weekend window resolved from the current time (start ≤ window end and
defaulted end ≥ window start); `filter_events_by_day_type(events,
'weekdays')` keeps exactly the events whose parseable *start* instant
falls on a Dubai weekday. -/
theorem C3_day_type_filter_amended (utcNow : Int) (events : List PyEvent) :
    filter_events_by_day_type events "weekends" utcNow =
      events.filter (weekendsKeep (weekendStartEndD (toDubai utcNow)).1
        (weekendStartEndD (toDubai utcNow)).2) ∧
    filter_events_by_day_type events "weekdays" utcNow = events.filter weekdaysKeep := by
  constructor
  · have h1 : filter_events_by_day_type events "weekends" utcNow =
        weekendsLoop (weekendStartEndD (toDubai utcNow)).1
          (weekendStartEndD (toDubai utcNow)).2 events := rfl
    rw [h1, weekendsLoop_eq_filter]
  · have h2 : filter_events_by_day_type events "weekdays" utcNow = weekdaysLoop events := rfl
    rw [h2, weekdaysLoop_eq_filter]

/-- Claim C4 (confirmed): both the retrieval-time `$and` date clause of
`get_events` and the post-filter weekends test hold exactly when
`E.start ≤ R.end` and `E.end ≥ R.start` (with the end defaulting to the
start for point events in the post-filter); consequently a range fully
containing the event matches, a range fully contained in it matches,
partial overlap on either side matches, and disjoint intervals never
match. -/
theorem C4_overlap_membership (fs fe es ee : Int) (e : Doc) (pe : PyEvent)
    (hs : e.start_date = some es) (he : e.end_date = some ee)
    (ps : pe.start_date = .dtv es) (pee : pe.end_date = .dtv ee) :
    (evalEntry e ("$and", eventsDateClause fs fe) = true ↔ es ≤ fe ∧ ee ≥ fs) ∧
    (weekendsKeep fs fe pe = true ↔ es ≤ fe ∧ ee ≥ fs) ∧
    (weekendsKeep fs fe ⟨pe.name, .dtv es, .missing⟩ = true ↔ es ≤ fe ∧ es ≥ fs) ∧
    (fs ≤ es → ee ≤ fe → es ≤ ee → evalEntry e ("$and", eventsDateClause fs fe) = true) ∧
    (es ≤ fs → fe ≤ ee → fs ≤ fe → evalEntry e ("$and", eventsDateClause fs fe) = true) ∧
    (es ≤ fs → fs ≤ ee → ee ≤ fe → evalEntry e ("$and", eventsDateClause fs fe) = true) ∧
    (fs ≤ es → es ≤ fe → fe ≤ ee → evalEntry e ("$and", eventsDateClause fs fe) = true) ∧
    (es ≤ ee → fs ≤ fe → (ee < fs ∨ fe < es) →
      evalEntry e ("$and", eventsDateClause fs fe) = false) := by
  refine ⟨?_, ?_, ?_, ?_, ?_, ?_, ?_, ?_⟩ <;>
    simp only [evalEntry, eventsDateClause, evalClause, evalCond, evalAtom, hs, he,
      weekendsKeep, parsedStart, parsedEnd, ps, pee, List.all_cons, List.all_nil,
      Bool.and_true, Bool.and_eq_true, Bool.and_eq_false_iff, decide_eq_true_eq,
      decide_eq_false_iff_not] <;>
    omega

/-- Claim C4 (witness): the overlap test at the concrete range `[0, 10]`
and event interval `[5, 7]` (range fully containing the event). -/
theorem C4_overlap_membership_witness :
    evalEntry
      ⟨"w", "", "", "active", none, none, [], [], none, none, none, none, none, none, none,
        none, none, none, none, none, none, none, none, some 5, some 7⟩
      ("$and", eventsDateClause 0 10) = true :=
  ((C4_overlap_membership 0 10 5 7
      ⟨"w", "", "", "active", none, none, [], [], none, none, none, none, none, none, none,
        none, none, none, none, none, none, none, none, some 5, some 7⟩
      ⟨"w", .dtv 5, .dtv 7⟩ rfl rfl rfl rfl).2.2.2.1) (by decide) (by decide) (by decide)

/-- Claim C5 (code evaluation at the failing input): the kids-keyword path
of the optimized search builds both the family-inclusion and the
adult-exclusion clause and rejects a nightlife-tagged event with
familyScore 90; but the family-keyword path of the same router, and the
family-friendly path of the v1 router, build only the inclusion clause,
and the same nightlife event satisfies their predicates. -/
theorem C5_family_filter_paths :
    v2KidsInclusionClause ∈ v2MustConditions "kids weekend" (20094 * usPerDay) ∧
    v2KidsExclusionClause ∈ v2MustConditions "kids weekend" (20094 * usPerDay) ∧
    evalFilter (buildOptimizedFilter "kids weekend" (20094 * usPerDay))
      ⟨"e1", "family night special", "", "active", some "nightlife", some "nightlife", [],
        ["nightlife"], none, none, none, none, some 90, none, none, none, none, none, none,
        none, none, none, none, some (20199 * usPerDay), some (20200 * usPerDay)⟩ = false ∧
    evalFilter (buildOptimizedFilter "family" (20094 * usPerDay))
      ⟨"e1", "family night special", "", "active", some "nightlife", some "nightlife", [],
        ["nightlife"], none, none, none, none, some 90, none, none, none, none, none, none,
        none, none, none, none, some (20199 * usPerDay), some (20200 * usPerDay)⟩ = true ∧
    evalFilter (ai_search_filter none none [] (some true) none none [])
      ⟨"e1", "family night special", "", "active", some "nightlife", some "nightlife", [],
        ["nightlife"], none, none, none, none, some 90, none, none, none, none, none, none,
        none, none, none, none, some (20199 * usPerDay), some (20200 * usPerDay)⟩ = true := by
  decide

/-- Claim C8 (counterexample): in `get_events`, requesting free events
(price_min = price_max = 0) together with a category assigns both the
free-price clause and the category clause to the same top-level `$or`
key; the category assignment overwrites the price clause, so a paid music
event satisfies the final filter even though the free-price clause alone
rejects it. -/
theorem C8_key_collision_counterexample :
    dictGet (get_events_filter none none none (some 0) (some 0) (some "music") none none none
      (20094 * usPerDay)) "$or" = some (eventsCategoryVal "music") ∧
    evalEntry
      ⟨"e2", "concert night", "", "active", some "music", none, [], [], some "100 AED",
        some 100, some 100, some 100, none, none, none, none, none, none, none, none, none,
        none, none, some (20199 * usPerDay), some (20200 * usPerDay)⟩
      ("$or", eventsFreePriceVal) = false ∧
    evalFilter (get_events_filter none none none (some 0) (some 0) (some "music") none none none
      (20094 * usPerDay))
      ⟨"e2", "concert night", "", "active", some "music", none, [], [], some "100 AED",
        some 100, some 100, some 100, none, none, none, none, none, none, none, none, none,
        none, none, some (20199 * usPerDay), some (20200 * usPerDay)⟩ = true := by
  decide

/-- Claim C8 (amended): in the optimized (v2) builder, every detected
intent dimension contributes its own element of the single top-level
`$and` conjunction, so a detected free-price clause and a detected
category clause are both present in the final filter and neither
overwrites the other. -/
theorem C8_v2_clause_separation_amended (q : String) (now : Int) (pc : MClause) (c : String)
    (pats : List String) (hp : v2PriceCond (pyLower q) = some pc)
    (hc : v2CategoryHit (pyLower q) = some (c, pats)) :
    pc ∈ v2MustConditions q now ∧
    v2CategoryClause c pats ∈ v2MustConditions q now ∧
    dictGet (buildOptimizedFilter q now) "$and" = some (.many (v2MustConditions q now)) := by
  have hmem1 : pc ∈ v2MustConditions q now := by
    simp [v2MustConditions, hp, hc]
  have hmem2 : v2CategoryClause c pats ∈ v2MustConditions q now := by
    simp [v2MustConditions, hp, hc]
  refine ⟨hmem1, hmem2, ?_⟩
  have hne : (v2MustConditions q now).isEmpty = false := by
    cases hlist : v2MustConditions q now with
    | nil => rw [hlist] at hmem1; exact absurd hmem1 (List.not_mem_nil _)
    | cons a l => rfl
  simp only [buildOptimizedFilter, hne, Bool.false_eq_true, if_false]
  rfl

/-- Claim C8 (witness): the query `free concerts` triggers both the free
price clause and the music category clause, and both sit in the `$and`
list of the final v2 filter. -/
theorem C8_v2_clause_separation_witness :
    MClause.cond (.orA [.priceRegexI "free", .pricingBaseEq 0, .priceEqS "0", .priceEqS "Free"])
        ∈ v2MustConditions "free concerts" 0 ∧
    v2CategoryClause "music" ["concerts", "music", "concert"] ∈
      v2MustConditions "free concerts" 0 ∧
    dictGet (buildOptimizedFilter "free concerts" 0) "$and" =
      some (.many (v2MustConditions "free concerts" 0)) :=
  C8_v2_clause_separation_amended "free concerts" 0
    (.cond (.orA [.priceRegexI "free", .pricingBaseEq 0, .priceEqS "0", .priceEqS "Free"]))
    "music" ["concerts", "music", "concert"] (by decide) (by decide)

/-- Claim C6 (counterexample): when the external ranking output parses to
a JSON array whose records fail `ScoredEvent` validation, `match_events`
returns an empty list although the capped candidate prefix sent for
scoring has two members — the returned length tracks the valid records of
the response, not the scorable candidate subset. -/
theorem C6_score_length_counterexample :
    (match_events true
        [⟨"a", "", "", "active", none, none, [], [], none, none, none, none, none, none,
          none, none, none, none, none, none, none, none, none, none, none⟩,
         ⟨"b", "", "", "active", none, none, [], [], none, none, none, none, none, none,
          none, none, none, none, none, none, none, none, none, none, none⟩]
        (.parsedList [⟨none, none, none, none⟩])).length = 0 ∧
    ([(⟨"a", "", "", "active", none, none, [], [], none, none, none, none, none, none,
        none, none, none, none, none, none, none, none, none, none, none⟩ : Doc),
      ⟨"b", "", "", "active", none, none, [], [], none, none, none, none, none, none,
        none, none, none, none, none, none, none, none, none, none, none⟩].take 10).length
      = 2 := by
  decide

/-- Claim C6 (amended): `match_events` never raises; on the failure paths
(exception/timeout, unparseable output, or output of an unexpected JSON
shape) it returns exactly one `ScoredEvent` per candidate in the capped
prefix `events[:10]`; when the output parses to a record list (or a
single record), the returned length equals the number of records that
pass validation, which can differ from the capped prefix size. -/
theorem C6_score_length_amended (events : List Doc) (ext : ExtOutcome) (hne : events ≠ []) :
    ((ext = .exc ∨ ext = .parsedOther) →
      (match_events true events ext).length = (events.take 10).length) ∧
    (∀ rs, ext = .parsedList rs →
      (match_events true events ext).length = (rs.filterMap validateRecord).length) ∧
    (∀ r, ext = .parsedDict r →
      (match_events true events ext).length = ([r].filterMap validateRecord).length) := by
  cases events with
  | nil => exact absurd rfl hne
  | cons a l =>
    refine ⟨?_, ?_, ?_⟩
    · rintro (rfl | rfl) <;> simp [match_events, fallbackScored]
    · rintro rs rfl
      simp [match_events, length_sortScoredDesc]
    · rintro r rfl
      simp [match_events, length_sortScoredDesc]

/-- Claim C6 (witness): the amended statement on a concrete two-candidate
list with an external exception. -/
theorem C6_score_length_amended_witness :
    (match_events true
        [⟨"a", "", "", "active", none, none, [], [], none, none, none, none, none, none,
          none, none, none, none, none, none, none, none, none, none, none⟩,
         ⟨"b", "", "", "active", none, none, [], [], none, none, none, none, none, none,
          none, none, none, none, none, none, none, none, none, none, none⟩]
        .exc).length =
      ([(⟨"a", "", "", "active", none, none, [], [], none, none, none, none, none, none,
          none, none, none, none, none, none, none, none, none, none, none⟩ : Doc),
        ⟨"b", "", "", "active", none, none, [], [], none, none, none, none, none, none,
          none, none, none, none, none, none, none, none, none, none, none⟩].take 10).length :=
  (C6_score_length_amended
    [⟨"a", "", "", "active", none, none, [], [], none, none, none, none, none, none,
      none, none, none, none, none, none, none, none, none, none, none⟩,
     ⟨"b", "", "", "active", none, none, [], [], none, none, none, none, none, none,
      none, none, none, none, none, none, none, none, none, none, none⟩]
    .exc (by decide)).1 (Or.inl rfl)

/-- Claim C7 (counterexample): two candidates with different lexical token
overlap against the query receive the *same* fallback score 50 and the
same fabricated reason — the fallback is a constant, not an
overlap-derived score. -/
theorem C7_fallback_constant_counterexample :
    quick_score "kids weekend"
        ⟨"a", "kids weekend fun", "", "active", none, none, [], [], none, none, none, none,
          none, none, none, none, none, none, none, none, none, none, none, none, none⟩ ≠
      quick_score "kids weekend"
        ⟨"b", "opera gala", "", "active", none, none, [], [], none, none, none, none,
          none, none, none, none, none, none, none, none, none, none, none, none, none⟩ ∧
    (match_events true
        [⟨"a", "kids weekend fun", "", "active", none, none, [], [], none, none, none, none,
          none, none, none, none, none, none, none, none, none, none, none, none, none⟩,
         ⟨"b", "opera gala", "", "active", none, none, [], [], none, none, none, none,
          none, none, none, none, none, none, none, none, none, none, none, none, none⟩]
        .exc).map ScoredEvent.score = [50, 50] ∧
    (match_events true
        [⟨"a", "kids weekend fun", "", "active", none, none, [], [], none, none, none, none,
          none, none, none, none, none, none, none, none, none, none, none, none, none⟩,
         ⟨"b", "opera gala", "", "active", none, none, [], [], none, none, none, none,
          none, none, none, none, none, none, none, none, none, none, none, none, none⟩]
        .exc).map ScoredEvent.reasoning =
      ["Event available in Dubai", "Event available in Dubai"] := by
  decide

/-- Claim C7 (amended): on any failure of the external ranking call,
`match_events` assigns every candidate of the capped prefix the constant
score 50 with the fixed fabricated reason string; lexical token overlap
(`quick_score`) is used only by the v1 router's pre-filter that selects
which candidates are sent for scoring, not by the fallback scorer. -/
theorem C7_fallback_amended (events : List Doc) (ext : ExtOutcome)
    (hfail : ext = .exc ∨ ext = .parsedOther) (hne : events ≠ []) :
    match_events true events ext =
      (events.take 10).map
        (fun e => ⟨e.id, 50, "Event available in Dubai", ["Local activity"]⟩) ∧
    ∀ se ∈ match_events true events ext,
      se.score = 50 ∧ se.reasoning = "Event available in Dubai" := by
  cases events with
  | nil => exact absurd rfl hne
  | cons a l =>
    have hmain : match_events true (a :: l) ext =
        ((a :: l).take 10).map
          (fun e => ⟨e.id, 50, "Event available in Dubai", ["Local activity"]⟩) := by
      rcases hfail with rfl | rfl <;> simp [match_events, fallbackScored]
    refine ⟨hmain, ?_⟩
    intro se hse
    rw [hmain] at hse
    simp only [List.mem_map] at hse
    obtain ⟨e, _, rfl⟩ := hse
    exact ⟨rfl, rfl⟩

/-- Claim C7 (witness): the amended statement on a concrete candidate
list with an external exception. -/
theorem C7_fallback_amended_witness :
    match_events true
        [⟨"a", "kids weekend fun", "", "active", none, none, [], [], none, none, none, none,
          none, none, none, none, none, none, none, none, none, none, none, none, none⟩]
        .exc =
      ([(⟨"a", "kids weekend fun", "", "active", none, none, [], [], none, none, none, none,
          none, none, none, none, none, none, none, none, none, none, none, none, none⟩ :
            Doc)].take 10).map
        (fun e => ⟨e.id, 50, "Event available in Dubai", ["Local activity"]⟩) :=
  (C7_fallback_amended
    [⟨"a", "kids weekend fun", "", "active", none, none, [], [], none, none, none, none,
      none, none, none, none, none, none, none, none, none, none, none, none, none⟩]
    .exc (Or.inl rfl) (by decide)).1

/-- Claim C9 (confirmed): with `total ≥ 0`, `page ≥ 1`, `per_page ≥ 1`,
the shared `total_pages` expression is the ceiling of `total / per_page`
(characterized by `total ≤ total_pages * per_page < total + per_page`),
and both routers' `has_next` expressions are equivalent to
`page * per_page < total`. -/
theorem C9_pagination (total page perPage : Nat) (hp : 1 ≤ page) (hpp : 1 ≤ perPage) :
    (total ≤ total_pages_calc total perPage * perPage ∧
      total_pages_calc total perPage * perPage < total + perPage) ∧
    (v2_has_next page total perPage = true ↔ page * perPage < total) ∧
    (v1_has_next page total perPage = true ↔ page * perPage < total) := by
  have hd := Nat.div_add_mod (total + perPage - 1) perPage
  have hm : (total + perPage - 1) % perPage < perPage := Nat.mod_lt _ hpp
  refine ⟨?_, ?_, ?_⟩
  · simp only [total_pages_calc]
    rw [Nat.mul_comm]
    generalize hB : perPage * ((total + perPage - 1) / perPage) = A at hd ⊢
    generalize hr : (total + perPage - 1) % perPage = r at hd hm
    omega
  · simp only [v2_has_next, total_pages_calc, decide_eq_true_eq]
    rw [Nat.lt_iff_add_one_le, Nat.le_div_iff_mul_le hpp, Nat.add_mul, Nat.one_mul]
    generalize page * perPage = B
    omega
  · simp only [v1_has_next, v1_skip, decide_eq_true_eq]
    obtain ⟨n, rfl⟩ : ∃ n, page = n + 1 := ⟨page - 1, by omega⟩
    simp only [Nat.add_sub_cancel, Nat.add_mul, Nat.one_mul]

/-- Claim C9 (witness): pagination equivalences at total 45, page 2,
per_page 20. -/
theorem C9_pagination_witness :
    (45 ≤ total_pages_calc 45 20 * 20 ∧ total_pages_calc 45 20 * 20 < 45 + 20) ∧
    (v2_has_next 2 45 20 = true ↔ 2 * 20 < 45) ∧
    (v1_has_next 2 45 20 = true ↔ 2 * 20 < 45) :=
  C9_pagination 45 2 20 (by decide) (by decide)
